/-
  Verification of the ESP32 GPS/BLE/WiFi telemetry firmware
  (repository variants GPS_WIFI_Blue_2.py, GPS_WIFI_Blue_3.py,
  GPS_WIFI_Blue_4_.py).

  Shallow embedding conventions:
  * Python floats are modelled exactly as rationals (ℚ).  All values the
    claims exercise are short decimal literals, far apart numerically, so
    the float/rational gap never decides a claim.
  * Python `str.split(',')` is `splitChar ','` on the character list (the
    two agree for one-character separators: the list of fields, an empty
    string yielding a single empty field).
  * Mutable module-level state (`nmea_x`, `nmea_y`, `gps_data_valid`,
    `last_x`, `last_y`) is a `GPSState` record threaded explicitly.
  * Exceptions are `Except PyErr`; functions that cannot raise are total.
-/
import Mathlib

namespace ESP32

/-- Python exception kinds relevant to the parser code. -/
inductive PyErr where
  | indexError
  | valueError
  deriving DecidableEq, Repr

/-- Python `s.split(sep)` for a one-character separator `sep`, on the
character list of `s`: always returns at least one (possibly empty)
field. -/
def splitChar (sep : Char) : List Char → List (List Char)
  | [] => [[]]
  | c :: rest =>
    match splitChar sep rest with
    | [] => [[c]]
    | a :: as => if c = sep then [] :: a :: as else (c :: a) :: as

/-- The comma-separated fields of an NMEA sentence, Python
`sentence.split(',')`. -/
def fieldsOf (sentence : String) : List (List Char) :=
  splitChar ',' sentence.data

/-- The GPS-related module globals of the firmware:
`nmea_x`/`nmea_y` (current longitude/latitude), `last_x`/`last_y`
(last-known-good longitude/latitude), `gps_data_valid`. -/
structure GPSState where
  nmea_x : ℚ
  nmea_y : ℚ
  last_x : ℚ
  last_y : ℚ
  gps_data_valid : Bool
  deriving DecidableEq, Repr

/-- The initial module state: `nmea_x = nmea_y = last_x = last_y = 0.0`,
`gps_data_valid = False`. -/
def GPSState.init : GPSState := ⟨0, 0, 0, 0, false⟩

/-- Value of a list of decimal digit characters, most significant first
(`none` if empty or a non-digit occurs).  Helper for `parseDecimal`. -/
def digitsVal (l : List Char) : Option ℕ :=
  if l.isEmpty then none else
  l.foldl (fun acc c =>
    match acc with
    | none => none
    | some n => if c.isDigit then some (n * 10 + (c.toNat - '0'.toNat)) else none)
    (some 0)

/-- Models Python `float(s)` on the plain decimal literals the NMEA fields
carry: an optional sign, an integer part and an optional fractional part,
evaluated exactly as a rational.  Anything else (empty string, stray
letters) fails, as `float` raises `ValueError`. -/
def parseDecimal (l : List Char) : Option ℚ :=
  let (neg, body) :=
    match l with
    | '-' :: rest => (true, rest)
    | '+' :: rest => (false, rest)
    | l => (false, l)
  let sign : ℚ → ℚ := fun q => if neg then -q else q
  match splitChar '.' body with
  | [ip] =>
    match digitsVal ip with
    | some n => some (sign (mkRat n 1))
    | none => none
  | [ip, fp] =>
    match digitsVal ip, digitsVal fp with
    | some n, some f => some (sign (mkRat (n * 10 ^ fp.length + f) (10 ^ fp.length)))
    | some n, none => if fp.isEmpty then some (sign (mkRat n 1)) else none
    | none, some f =>
      if ip.isEmpty then some (sign (mkRat f (10 ^ fp.length))) else none
    | none, none => none
  | _ => none

/-- `GPSReader._parse_gll` of GPS_WIFI_Blue_3.py / GPS_WIFI_Blue_4_.py
(the two files carry the same function body).  Returns the new module
state and the boolean the method returns.  Field accesses are guarded by
the `len(parts) < 7` check, so no exception can escape; a `ValueError`
from `float` is caught inside and yields `False` with the state
untouched (both conversions precede every assignment). -/
def parse_gll (st : GPSState) (sentence : String) : GPSState × Bool :=
  let parts := fieldsOf sentence
  if parts.length < 7 then (st, false)
  else if parts.getD 6 [] ≠ ['A'] then
    -- status not 'A'ctive: fall back to historical data when last_x ≠ 0
    if st.last_x ≠ 0 then
      ({ st with nmea_x := st.last_x, nmea_y := st.last_y, gps_data_valid := true }, false)
    else (st, false)
  else
    match parseDecimal (parts.getD 1 []) with
    | none => (st, false)
    | some lat0 =>
      let lat := if (parts.getD 2 []).contains 'S' then -lat0 else lat0
      match parseDecimal (parts.getD 3 []) with
      | none => (st, false)
      | some lon0 =>
        let lon := if (parts.getD 4 []).contains 'W' then -lon0 else lon0
        ({ nmea_x := lon, nmea_y := lat, last_x := lon, last_y := lat,
           gps_data_valid := true }, true)

/-- Folding `_parse_gll` over a list of sentences (ignoring the returned
booleans), i.e. the cumulative effect of feeding the parser a sequence. -/
def parseSteps (st : GPSState) (l : List String) : GPSState :=
  l.foldl (fun s sen => (parse_gll s sen).1) st

/-- A sentence is a well-formed void GLL record: at least 7 comma-fields
and a status field (index 6) different from `"A"`. -/
def isVoidGLL (s : String) : Prop :=
  7 ≤ (fieldsOf s).length ∧ (fieldsOf s).getD 6 [] ≠ ['A']

instance (s : String) : Decidable (isVoidGLL s) := by
  unfold isVoidGLL; infer_instance

/-- Python `pat in s` (substring containment) on character lists. -/
def isSubstring (pat : List Char) : List Char → Bool
  | [] => pat.isEmpty
  | c :: rest => pat.isPrefixOf (c :: rest) || isSubstring pat rest

/-- The end-to-end test sentence of the specification. -/
def gllTestSentence : String := "$xxGLL,3723.2475,N,12158.3416,W,161229.487,A,A*41"

/-- The state the parser commits for `gllTestSentence`: the raw NMEA
`ddmm.mmmm` field values (latitude 3723.2475, longitude −12158.3416
after the `W` negation), with the valid flag set. -/
def gllCommittedFix : GPSState :=
  ⟨mkRat (-121583416) 10000, mkRat 37232475 10000,
   mkRat (-121583416) 10000, mkRat 37232475 10000, true⟩

/-- A well-formed GLL sentence whose status field is `V` (void). -/
def gllVoidSentence : String := "$xxGLL,3000.0,N,12000.0,W,161229.487,V,A*41"

/-- A GLL sentence with exactly six comma-separated fields (checksum and
status fields missing). -/
def gllSixFieldSentence : String := "$GPGLL,3723.2475,N,12158.3416,W,161229.487"

/-- `GPSReader._parse_gll` of GPS_WIFI_Blue_2.py.  The guard is
`len(parts) >= 6`, yet `parts[6]` is read immediately afterwards, so a
sentence with exactly six fields raises `IndexError` (there is no
try/except inside this method around that access — the try only wraps
the `float` conversions, whose `ValueError` falls through to
`return False` with the state untouched). -/
def parse_gll_v2 (st : GPSState) (sentence : String) :
    Except PyErr (GPSState × Bool) :=
  let parts := fieldsOf sentence
  if 6 ≤ parts.length then
    if 7 ≤ parts.length then
      if parts.getD 6 [] = ['A'] then
        match parseDecimal (parts.getD 1 []), parseDecimal (parts.getD 3 []) with
        | some lat0, some lon0 =>
          let lat := if (parts.getD 2 []).contains 'S' then -lat0 else lat0
          let lon := if (parts.getD 4 []).contains 'W' then -lon0 else lon0
          .ok ({ nmea_x := lon, nmea_y := lat, last_x := lon, last_y := lat,
                 gps_data_valid := true }, true)
        | _, _ => .ok (st, false)  -- ValueError from float(): caught, falls to return False
      else
        -- void status: use historical data unless last_x == 0
        if st.last_x = 0 then .ok (st, false)
        else
          let st' := { st with nmea_x := st.last_x, nmea_y := st.last_y,
                               gps_data_valid := true }
          .ok (st', false)
    else .error .indexError  -- parts[6] with exactly 6 fields
  else .ok (st, false)

/-- The sentence loop of `GPSReader.read_gps_data` in GPS_WIFI_Blue_2.py,
applied to the already-split `\r\n` chunk.  The whole loop sits inside a
blanket `try/except`, so an exception raised by `_parse_gll` abandons
the remaining sentences and is swallowed (the current state is kept); a
successful parse breaks out of the loop. -/
def read_gps_data_v2 (st : GPSState) : List String → GPSState
  | [] => st
  | s :: rest =>
    if s.data.isEmpty then read_gps_data_v2 st rest
    else if isSubstring "GLL".data s.data then
      match parse_gll_v2 st s with
      | .error _ => st                         -- exception: loop abandoned, caught outside
      | .ok (st', true) => st'                 -- break
      | .ok (st', false) => read_gps_data_v2 st' rest
    else read_gps_data_v2 st rest

/-! ### The BLE ingest ring buffer (`data_pool`, GPS_WIFI_Blue_4_.py) -/

/-- The `data_pool` class: a fixed list of `size` slots (initialised to
Python `None`, hence `Option`), and a write cursor `index`. -/
structure Pool (α : Type) where
  size : ℕ
  buffer : List (Option α)
  index : ℕ
  deriving DecidableEq, Repr

/-- `data_pool(size)`: buffer of `size` `None` slots, cursor 0. -/
def Pool.empty (α : Type) (size : ℕ) : Pool α :=
  ⟨size, List.replicate size none, 0⟩

/-- `data_pool.append`: write at the cursor, advance modulo `size`. -/
def Pool.append {α : Type} (p : Pool α) (item : α) : Pool α :=
  { p with buffer := p.buffer.set p.index (some item),
           index := (p.index + 1) % p.size }

/-- `data_pool.get_new(n)`: when `index >= n`, the slice
`buffer[index-n:index]`; otherwise Python `None`. -/
def Pool.get_new {α : Type} (p : Pool α) (n : ℕ) : Option (List (Option α)) :=
  if n ≤ p.index then some ((p.buffer.drop (p.index - n)).take n) else none

/-- One call of the `get_new` *method*: the Python method body contains
no assignment, so the receiver object comes back unchanged. -/
def Pool.get_new_call {α : Type} (p : Pool α) (n : ℕ) :
    Option (List (Option α)) × Pool α :=
  (p.get_new n, p)

/-- A sequence of `append` calls (the BLE IRQ pushing samples). -/
def pushAll {α : Type} (p : Pool α) (l : List α) : Pool α :=
  l.foldl Pool.append p

/-! ### The upload scheduler of `main` (GPS_WIFI_Blue_3.py / _4_.py) -/

/-- `min_upload_interval = 0.5` (both variants). -/
def minUploadInterval : ℚ := mkRat 1 2

/-- `max_upload_interval = 3.0` in GPS_WIFI_Blue_4_.py. -/
def maxUploadInterval4 : ℚ := mkRat 3 1

/-- `max_upload_interval = 5.0` in GPS_WIFI_Blue_3.py. -/
def maxUploadInterval3 : ℚ := mkRat 5 1

/-- `max_consecutive_failures = 3` (both variants). -/
def maxConsecutiveFailures : ℕ := 3

/-- The scheduler variables of `main` that one upload attempt touches. -/
structure SchedState where
  current_interval : ℚ
  consecutive_failures : ℕ
  deriving DecidableEq, Repr

/-- Effect of one upload attempt's outcome in `main`'s loop (both
variants, with the file's `max_upload_interval` passed as `maxI`):
success resets interval and counter; failure increments the counter and,
at the threshold, doubles the interval capped at `maxI` and resets the
counter. -/
def schedStep (maxI : ℚ) (s : SchedState) (success : Bool) : SchedState :=
  if success then ⟨minUploadInterval, 0⟩
  else if maxConsecutiveFailures ≤ s.consecutive_failures + 1 then
    ⟨min (s.current_interval * 2) maxI, 0⟩
  else ⟨s.current_interval, s.consecutive_failures + 1⟩

/-- The scheduler state after a sequence of attempt outcomes, starting
from `main`'s initialisation (`current_upload_interval =
min_upload_interval`, `consecutive_failures = 0`). -/
def schedRun (maxI : ℚ) (l : List Bool) : SchedState :=
  l.foldl (schedStep maxI) ⟨minUploadInterval, 0⟩

/-- Bookkeeping mirror of one outcome: counts completed runs of
`max_consecutive_failures` consecutive failures since the last success
(first component) and the failures accumulated in the current
(incomplete) run (second component). -/
def failStep (p : ℕ × ℕ) (success : Bool) : ℕ × ℕ :=
  if success then (0, 0)
  else if maxConsecutiveFailures ≤ p.2 + 1 then (p.1 + 1, 0)
  else (p.1, p.2 + 1)

/-- Completed failure runs and current-run failures over a whole outcome
sequence. -/
def failRuns (l : List Bool) : ℕ × ℕ :=
  l.foldl failStep (0, 0)

/-! ### The v3 main-loop tick around `DataUploader.upload_data` -/

/-- The globals of GPS_WIFI_Blue_3.py that an upload attempt reads or
writes: the two readiness flags and `main`'s scheduling variables. -/
structure MainState3 where
  gps_data_valid : Bool
  ble_data_received : Bool
  last_upload_time : ℚ
  current_upload_interval : ℚ
  consecutive_failures : ℕ
  deriving DecidableEq, Repr

/-- `DataUploader.upload_data` of GPS_WIFI_Blue_3.py with the HTTP POST
outcome abstracted as `postOk`: returns `False` untouched unless both
flags are set (then `generate_payload` yields a payload); on a
successful POST both flags are cleared, on a failed POST the state is
returned unchanged. -/
def upload_data_v3 (s : MainState3) (postOk : Bool) : MainState3 × Bool :=
  if s.gps_data_valid && s.ble_data_received then
    if postOk then
      ({ s with gps_data_valid := false, ble_data_received := false }, true)
    else (s, false)
  else (s, false)

/-- The upload branch of one iteration of `main`'s loop in
GPS_WIFI_Blue_3.py, entered with WiFi connected: if the interval has
elapsed, attempt the upload; on success reset interval/counter and set
`last_upload_time = current_time`; on failure increment the counter and
at the threshold double the interval (capped) and reset the counter —
`last_upload_time` is written only in the success branch. -/
def mainTick3 (s : MainState3) (now : ℚ) (postOk : Bool) : MainState3 :=
  if s.current_upload_interval ≤ now - s.last_upload_time then
    match upload_data_v3 s postOk with
    | (s', true) =>
      { s' with current_upload_interval := minUploadInterval,
                consecutive_failures := 0, last_upload_time := now }
    | (s', false) =>
      if maxConsecutiveFailures ≤ s'.consecutive_failures + 1 then
        { s' with current_upload_interval :=
                    min (s'.current_upload_interval * 2) maxUploadInterval3,
                  consecutive_failures := 0 }
      else { s' with consecutive_failures := s'.consecutive_failures + 1 }
  else s

/-! ### Payload generation and decimal formatting -/

/-- `device_id = "3"` (all variants). -/
def device_id : String := "3"

/-- The JSON payload record all three `generate_payload` variants build
(`user_data` kept generic: its element type differs per variant). -/
structure Payload (α : Type) where
  device_id : String
  position_x : String
  position_y : String
  time_stamp : String
  user_data : α
  deriving DecidableEq, Repr

/-- The decimal digit character of `n` (for `n ≤ 9`). -/
def digitChar : ℕ → Char
  | 0 => '0' | 1 => '1' | 2 => '2' | 3 => '3' | 4 => '4'
  | 5 => '5' | 6 => '6' | 7 => '7' | 8 => '8' | _ => '9'

/-- Decimal digits of `n`, most significant first, via explicit fuel
(structural recursion so that concrete evaluation reduces). -/
def natToCharsAux : ℕ → ℕ → List Char
  | 0, _ => []
  | fuel + 1, n =>
    if n < 10 then [digitChar n]
    else natToCharsAux fuel (n / 10) ++ [digitChar (n % 10)]

/-- Decimal digit string of a natural number (`"0"` for 0). -/
def natToChars (n : ℕ) : List Char := natToCharsAux (n + 1) n

/-- Digits of `n` left-padded with `'0'` to width `k`. -/
def padTo (k : ℕ) (n : ℕ) : List Char :=
  List.replicate (k - (natToChars n).length) '0' ++ natToChars n

/-- `round(|q| * 10^6)` as a natural number — the scaled magnitude that
`"%.6f"` prints (rounding to nearest; the embedding rounds exact halves
up, a case no finite-precision float input produces exactly). -/
def round6 (q : ℚ) : ℕ :=
  let a := if q < 0 then -q else q
  let r := a * mkRat 1000000 1 + mkRat 1 2
  (r.num / (r.den : ℤ)).toNat

/-- Python `"%.6f" % q`: optional minus sign, integer part, `'.'`, and
exactly six fractional digits. -/
def fmt6 (q : ℚ) : String :=
  let n := round6 q
  let sign : List Char := if q < 0 then ['-'] else []
  String.mk (sign ++ natToChars (n / 1000000) ++ '.' :: padTo 6 (n % 1000000))

/-- Python `str()` of a float whose value is a decimal fraction of at
most 17 fractional digits (every coordinate this firmware handles): the
shortest-repr decimal — trailing zeros stripped, at least one
fractional digit kept (`str(0.0) = "0.0"`). -/
def pyFloatStr (q : ℚ) : String :=
  let sign : List Char := if q < 0 then ['-'] else []
  let a := if q < 0 then -q else q
  let n : ℕ := (a * mkRat (10 ^ 17) 1).num.toNat
  let frL := ((padTo 17 (n % 10 ^ 17)).reverse.dropWhile (fun c => c = '0')).reverse
  String.mk (sign ++ natToChars (n / 10 ^ 17) ++ '.' ::
    (if frL.isEmpty then ['0'] else frL))

/-- Number of characters after the first `'.'` of a string. -/
def fracDigitCount (s : String) : ℕ :=
  ((s.data.dropWhile (fun c => c ≠ '.')).drop 1).length

/-- `DataUploader.generate_payload` of GPS_WIFI_Blue_3.py: `None` unless
both readiness flags are set; coordinates via `"%.6f"`; `user_data`
truncated to its last 200 entries when longer. -/
def generate_payload_v3 {β : Type} (g : GPSState) (ble_received : Bool)
    (ud : List β) (timeStr : String) : Option (Payload (List β)) :=
  if g.gps_data_valid && ble_received then
    some ⟨device_id, fmt6 g.nmea_x, fmt6 g.nmea_y, timeStr,
          if 200 < ud.length then ud.drop (ud.length - 200) else ud⟩
  else none

/-- `DataUploader.generate_payload` of GPS_WIFI_Blue_4_.py: `None`
exactly when `pool_data.get_new()` (default `n = 4`) is `None`; the GPS
validity flag is not consulted. -/
def generate_payload_v4 {β : Type} (g : GPSState) (p : Pool β)
    (timeStr : String) : Option (Payload (List (Option β))) :=
  match p.get_new 4 with
  | none => none
  | some d => some ⟨device_id, fmt6 g.nmea_x, fmt6 g.nmea_y, timeStr, d⟩

/-- `DataUploader.generate_payload` of GPS_WIFI_Blue_2.py: always builds
(the readiness flags are checked by `upload_data`, not here);
coordinates via Python `str()`, not `"%.6f"`. -/
def generate_payload_v2 {β : Type} (g : GPSState) (ud : List β)
    (timeStr : String) : Option (Payload (List β)) :=
  some ⟨device_id, pyFloatStr g.nmea_x, pyFloatStr g.nmea_y, timeStr, ud⟩

/-! ## Helper lemmas -/

/-- A successful `_parse_gll` commit equates the last-known-good fields
with the current fields and sets the valid flag. -/
theorem parse_gll_true_commit (st : GPSState) (v : String) (st' : GPSState)
    (h : parse_gll st v = (st', true)) :
    st'.last_x = st'.nmea_x ∧ st'.last_y = st'.nmea_y ∧ st'.gps_data_valid = true := by
  simp only [parse_gll] at h
  repeat' split at h
  all_goals simp at h
  all_goals rw [← h]
  all_goals exact ⟨rfl, rfl, rfl⟩

/-- On a state whose last-known-good fields agree with the current ones
and whose valid flag is set, a void GLL sentence leaves the state
untouched (the historical-fallback write is the identity there). -/
theorem parse_gll_void_fix (s : GPSState) (w : String) (hv : isVoidGLL w)
    (hlx : s.last_x = s.nmea_x) (hly : s.last_y = s.nmea_y)
    (hval : s.gps_data_valid = true) :
    parse_gll s w = (s, false) := by
  obtain ⟨h7, hA⟩ := hv
  simp only [parse_gll]
  rw [if_neg (by omega)]
  rw [if_pos hA]
  split
  · cases s
    simp_all
  · rfl

/-- Iterated form of `parse_gll_void_fix` over a sentence list. -/
theorem parseSteps_void_fix (s : GPSState) (ws : List String)
    (hws : ∀ w ∈ ws, isVoidGLL w)
    (hlx : s.last_x = s.nmea_x) (hly : s.last_y = s.nmea_y)
    (hval : s.gps_data_valid = true) :
    parseSteps s ws = s := by
  induction ws with
  | nil => rfl
  | cons w ws ih =>
    unfold parseSteps
    rw [List.foldl_cons, parse_gll_void_fix s w (hws w (by simp)) hlx hly hval]
    exact ih (fun w hw => hws w (by simp [hw]))

/-- Pushing a final element is an `append` on the already-pushed pool. -/
theorem pushAll_concat {α : Type} (p : Pool α) (l : List α) (a : α) :
    pushAll p (l ++ [a]) = (pushAll p l).append a := by
  simp [pushAll, List.foldl_append]

/-- `append` never changes the capacity. -/
theorem size_pushAll {α : Type} (p : Pool α) (l : List α) :
    (pushAll p l).size = p.size := by
  induction l generalizing p with
  | nil => rfl
  | cons a l ih => rw [pushAll, List.foldl_cons, ← pushAll]; rw [ih]; rfl

/-- After `l.length` pushes into the capacity-10 pool the cursor is the
push count modulo 10. -/
theorem index_pushAll {α : Type} (l : List α) :
    (pushAll (Pool.empty α 10) l).index = l.length % 10 := by
  induction l using List.reverseRecOn with
  | nil => rfl
  | append_singleton l a ih =>
    rw [pushAll_concat]
    show ((pushAll (Pool.empty α 10) l).index + 1) % (pushAll (Pool.empty α 10) l).size
        = (l ++ [a]).length % 10
    rw [size_pushAll, ih]
    show (l.length % 10 + 1) % 10 = (l ++ [a]).length % 10
    simp only [List.length_append, List.length_singleton]
    omega

/-- Before the first wraparound, the buffer is the pushed elements in
order followed by the untouched `None` slots. -/
theorem buffer_pushAll {α : Type} (l : List α) (h : l.length ≤ 10) :
    (pushAll (Pool.empty α 10) l).buffer
      = l.map some ++ List.replicate (10 - l.length) none := by
  induction l using List.reverseRecOn with
  | nil => rfl
  | append_singleton l a ih =>
    have hl : l.length ≤ 10 := by simp at h; omega
    have hl9 : l.length < 10 := by simp at h; omega
    rw [pushAll_concat]
    show ((pushAll (Pool.empty α 10) l).buffer).set
        (pushAll (Pool.empty α 10) l).index (some a) = _
    rw [ih hl, index_pushAll, Nat.mod_eq_of_lt hl9]
    rw [List.set_append_right _ _ (by simp)]
    have : (10 : ℕ) - l.length = (10 - (l.length + 1)) + 1 := by omega
    rw [this, List.replicate_succ]
    simp

/-- Once at least 10 samples have been pushed, every slot is occupied. -/
theorem buffer_full_pushAll {α : Type} (l : List α) (h : 10 ≤ l.length) :
    ∀ x ∈ (pushAll (Pool.empty α 10) l).buffer, x.isSome = true := by
  induction l using List.reverseRecOn with
  | nil => simp at h
  | append_singleton l a ih =>
    rcases Nat.lt_or_ge l.length 10 with hlt | hge
    · have h10 : (l ++ [a]).length = 10 := by simp at h ⊢; omega
      rw [buffer_pushAll (l ++ [a]) (le_of_eq h10), h10]
      simp
      rintro x (⟨b, -, rfl⟩ | rfl) <;> rfl
    · rw [pushAll_concat]
      intro x hx
      rcases List.mem_or_eq_of_mem_set hx with hmem | heq
      · exact ih hge x hmem
      · rw [heq]; rfl

/-- Capped doubling advances the capped power: one more doubling of
`min (i * 2 ^ k) m`, capped at `m`, is `min (i * 2 ^ (k+1)) m`. -/
theorem interval_double_min (i m : ℚ) (k : ℕ) (hi : 0 ≤ i) (him : i ≤ m) :
    min (min (i * 2 ^ k) m * 2) m = min (i * 2 ^ (k + 1)) m := by
  rcases le_total (i * 2 ^ k) m with h | h
  · rw [min_eq_left h, pow_succ, ← mul_assoc]
  · have h0 : (0 : ℚ) ≤ i * 2 ^ k := by positivity
    have hm0 : (0 : ℚ) ≤ m := le_trans hi him
    rw [min_eq_right h, min_eq_right (by linarith), pow_succ, ← mul_assoc,
        min_eq_right (by linarith)]

/-- Invariant of the backoff loop: the interval is always the capped
power `min (minUploadInterval * 2 ^ runs) maxI` where `runs` counts the
completed failure runs tracked by `failStep`, and the failure counter
matches the current-run count. -/
theorem sched_invariant (maxI : ℚ) (hm : minUploadInterval ≤ maxI)
    (l : List Bool) (s : SchedState) (p : ℕ × ℕ)
    (hI : s.current_interval = min (minUploadInterval * 2 ^ p.1) maxI)
    (hF : s.consecutive_failures = p.2) :
    (l.foldl (schedStep maxI) s).current_interval
        = min (minUploadInterval * 2 ^ (l.foldl failStep p).1) maxI
    ∧ (l.foldl (schedStep maxI) s).consecutive_failures = (l.foldl failStep p).2 := by
  have hmin0 : (0 : ℚ) ≤ minUploadInterval := by decide
  induction l generalizing s p with
  | nil => exact ⟨hI, hF⟩
  | cons b l ih =>
    rw [List.foldl_cons, List.foldl_cons]
    cases b with
    | true =>
      have h1 : schedStep maxI s true = ⟨minUploadInterval, 0⟩ := rfl
      have h2 : failStep p true = (0, 0) := rfl
      rw [h1, h2]
      apply ih
      · show minUploadInterval = min (minUploadInterval * 2 ^ (0 : ℕ)) maxI
        rw [pow_zero, mul_one, min_eq_left hm]
      · rfl
    | false =>
      have h1 : schedStep maxI s false
          = if maxConsecutiveFailures ≤ s.consecutive_failures + 1 then
              ⟨min (s.current_interval * 2) maxI, 0⟩
            else ⟨s.current_interval, s.consecutive_failures + 1⟩ := rfl
      have h2 : failStep p false
          = if maxConsecutiveFailures ≤ p.2 + 1 then (p.1 + 1, 0)
            else (p.1, p.2 + 1) := rfl
      rw [h1, h2, hF]
      by_cases hth : maxConsecutiveFailures ≤ p.2 + 1
      · rw [if_pos hth, if_pos hth]
        apply ih
        · show min (s.current_interval * 2) maxI
              = min (minUploadInterval * 2 ^ (p.1 + 1)) maxI
          rw [hI]
          exact interval_double_min _ _ _ hmin0 hm
        · rfl
      · rw [if_neg hth, if_neg hth]
        exact ih _ _ hI rfl

/-- The digit characters used by the formatter are never a dot. -/
theorem digitChar_ne_dot (m : ℕ) : digitChar m ≠ '.' := by
  rcases m with _|_|_|_|_|_|_|_|_|m
  case succ.succ.succ.succ.succ.succ.succ.succ.succ =>
    show ('9' : Char) ≠ '.'
    decide
  all_goals decide

/-- No character of a printed natural number is a dot. -/
theorem natToCharsAux_ne_dot (fuel n : ℕ) :
    ∀ c ∈ natToCharsAux fuel n, c ≠ '.' := by
  induction fuel generalizing n with
  | zero => intro c hc; simp [natToCharsAux] at hc
  | succ fuel ih =>
    intro c hc
    unfold natToCharsAux at hc
    split at hc
    · simp at hc
      rw [hc]; exact digitChar_ne_dot n
    · rw [List.mem_append] at hc
      rcases hc with hc | hc
      · exact ih (n / 10) c hc
      · simp at hc
        rw [hc]; exact digitChar_ne_dot _

/-- A natural below `10 ^ k` prints in at most `k` digits. -/
theorem natToCharsAux_length (fuel : ℕ) :
    ∀ n k, n < fuel → 1 ≤ k → n < 10 ^ k → (natToCharsAux fuel n).length ≤ k := by
  induction fuel with
  | zero => intro n k hn _ _; omega
  | succ fuel ih =>
    intro n k hn hk hnk
    unfold natToCharsAux
    split
    · simpa using hk
    · rename_i h10
      have hk2 : 2 ≤ k := by
        by_contra hcon
        have : k = 1 := by omega
        rw [this, pow_one] at hnk
        omega
      have hdiv : n / 10 < fuel :=
        lt_of_lt_of_le (Nat.div_lt_self (by omega) (by omega)) (by omega)
      have hdk : n / 10 < 10 ^ (k - 1) := by
        rw [Nat.div_lt_iff_lt_mul (by omega)]
        calc n < 10 ^ k := hnk
        _ = 10 ^ (k - 1) * 10 := by
            rw [← pow_succ]
            congr 1
            omega
      have := ih (n / 10) (k - 1) hdiv (by omega) hdk
      simp only [List.length_append, List.length_singleton]
      omega

/-- Digit-count bound for `natToChars`. -/
theorem natToChars_length_le (n k : ℕ) (hk : 1 ≤ k) (h : n < 10 ^ k) :
    (natToChars n).length ≤ k :=
  natToCharsAux_length (n + 1) n k (by omega) hk h

/-- Padding to width `k` yields exactly `k` characters for `n < 10 ^ k`. -/
theorem padTo_length (k n : ℕ) (hk : 1 ≤ k) (h : n < 10 ^ k) :
    (padTo k n).length = k := by
  unfold padTo
  have := natToChars_length_le n k hk h
  simp only [List.length_append, List.length_replicate]
  omega

/-- `dropWhile` skips a whole prefix all of whose elements satisfy the
predicate. -/
theorem dropWhile_append_of_all {α : Type} (p : α → Bool) (l₁ l₂ : List α)
    (h : ∀ c ∈ l₁, p c = true) :
    (l₁ ++ l₂).dropWhile p = l₂.dropWhile p := by
  induction l₁ with
  | nil => rfl
  | cons a l ih =>
    rw [List.cons_append, List.dropWhile_cons, if_pos (h a (List.mem_cons_self a l))]
    exact ih (fun c hc => h c (List.mem_cons_of_mem a hc))

/-- Every string `"%.6f"` produces has exactly six characters after its
dot. -/
theorem fracDigitCount_fmt6 (q : ℚ) : fracDigitCount (fmt6 q) = 6 := by
  unfold fmt6 fracDigitCount
  show (((((if q < 0 then ['-'] else []) ++ natToChars (round6 q / 1000000)
      ++ '.' :: padTo 6 (round6 q % 1000000)).dropWhile fun c => c ≠ '.').drop 1)).length = 6
  rw [List.append_assoc]
  rw [dropWhile_append_of_all _ _ _ ?hsign]
  case hsign =>
    intro c hc
    split at hc
    · simp at hc
      rw [hc]; decide
    · simp at hc
  rw [dropWhile_append_of_all _ _ _ ?hdigits]
  case hdigits =>
    intro c hc
    have := natToCharsAux_ne_dot _ _ c hc
    simpa using this
  rw [List.dropWhile_cons, if_neg (by simp)]
  rw [List.drop_one, List.tail_cons]
  exact padTo_length 6 _ (by omega) (Nat.mod_lt _ (by norm_num))

/-! ## Claims -/

/-- Claim C1, counterexample: on the specification's end-to-end sentence
the committed fix does NOT have latitude 37.387458 and longitude
−121.972693 — the parser stores the raw NMEA `ddmm.mmmm` field values
without converting them to decimal degrees. -/
theorem c1_counterexample :
    ¬ ((parse_gll GPSState.init gllTestSentence).1.nmea_y = mkRat 37387458 1000000
       ∧ (parse_gll GPSState.init gllTestSentence).1.nmea_x
           = mkRat (-121972693) 1000000) := by
  decide

/-- Claim C1 (amended): feeding the single sentence
`"$xxGLL,3723.2475,N,12158.3416,W,161229.487,A,A*41"` commits a fix with
latitude 3723.2475 and longitude −12158.3416 — the raw NMEA `ddmm.mmmm`
values, the hemisphere `W` negating the longitude — and sets the
position-valid flag, in both the v3/v4 parser and the v2 parser. -/
theorem c1_theorem :
    parse_gll GPSState.init gllTestSentence = (gllCommittedFix, true)
    ∧ parse_gll_v2 GPSState.init gllTestSentence = .ok (gllCommittedFix, true) := by
  constructor <;> rfl

/-- Claim C2: after one successfully parsed valid GLL sentence, any
sequence of well-formed void GLL sentences leaves the position-valid
flag true and the exposed coordinates exactly as committed by the valid
sentence. -/
theorem c2_theorem (st st' : GPSState) (v : String)
    (hv : parse_gll st v = (st', true))
    (ws : List String) (hws : ∀ w ∈ ws, isVoidGLL w) :
    (parseSteps st' ws).gps_data_valid = true
    ∧ (parseSteps st' ws).nmea_x = st'.nmea_x
    ∧ (parseSteps st' ws).nmea_y = st'.nmea_y := by
  obtain ⟨hlx, hly, hval⟩ := parse_gll_true_commit st v st' hv
  rw [parseSteps_void_fix st' ws hws hlx hly hval]
  exact ⟨hval, rfl, rfl⟩

/-- Claim C2, witness: the end-to-end sentence followed by one void
sentence keeps the committed fix and the valid flag. -/
theorem c2_witness :
    (parseSteps gllCommittedFix [gllVoidSentence]).gps_data_valid = true
    ∧ (parseSteps gllCommittedFix [gllVoidSentence]).nmea_x = gllCommittedFix.nmea_x
    ∧ (parseSteps gllCommittedFix [gllVoidSentence]).nmea_y = gllCommittedFix.nmea_y :=
  c2_theorem GPSState.init gllCommittedFix gllTestSentence (by decide)
    [gllVoidSentence] (by decide)

/-- Claim C3, counterexample: pushing 10 samples (a multiple of the
capacity) leaves the cursor at 0, and `get_new 4` returns `None` rather
than the four most recent samples, although at least `batch_size`
samples have been pushed. -/
theorem c3_counterexample :
    Pool.get_new (pushAll (Pool.empty ℕ 10) [0, 1, 2, 3, 4, 5, 6, 7, 8, 9]) 4 = none
    ∧ 4 ≤ ([0, 1, 2, 3, 4, 5, 6, 7, 8, 9] : List ℕ).length := by
  decide

/-- Claim C3 (amended): as long as fewer pushes than the capacity have
occurred (no wraparound), once at least `batch_size = 4` samples are in,
`get_new 4` returns exactly the four most recently pushed samples in
push order; in particular pushing exactly four samples yields those
four.  After the cursor wraps it can return `None` instead (see the
counterexample). -/
theorem c3_theorem {α : Type} (l : List α) (h4 : 4 ≤ l.length)
    (h10 : l.length < 10) :
    Pool.get_new (pushAll (Pool.empty α 10) l) 4
      = some ((l.drop (l.length - 4)).map some) := by
  unfold Pool.get_new
  rw [index_pushAll, Nat.mod_eq_of_lt h10, if_pos h4]
  rw [buffer_pushAll l (le_of_lt h10)]
  rw [List.drop_append_of_le_length (by simp only [List.length_map]; omega)]
  rw [← List.map_drop]
  rw [List.take_left' (by simp only [List.length_drop, List.length_map]; omega)]

/-- Claim C3, witness: pushing exactly four samples with
`batch_size = 4` returns those four in order. -/
theorem c3_witness :
    Pool.get_new (pushAll (Pool.empty ℕ 10) [11, 22, 33, 44]) 4
      = some [some 11, some 22, some 33, some 44] := by
  have h := c3_theorem [11, 22, 33, 44] (by decide) (by decide)
  simpa using h

/-- Claim C4: for any sequence of upload outcomes, the current interval
equals `min (initial * 2 ^ k) max` where `k` is the number of completed
threshold-length failure runs since the last success, and the interval
never exceeds the configured maximum. -/
theorem c4_theorem (maxI : ℚ) (l : List Bool) (hm : minUploadInterval ≤ maxI) :
    (schedRun maxI l).current_interval
        = min (minUploadInterval * 2 ^ (failRuns l).1) maxI
    ∧ (schedRun maxI l).current_interval ≤ maxI := by
  have h := sched_invariant maxI hm l ⟨minUploadInterval, 0⟩ (0, 0)
    (by show minUploadInterval = min (minUploadInterval * 2 ^ (0 : ℕ)) maxI
        rw [pow_zero, mul_one, min_eq_left hm])
    rfl
  exact ⟨h.1, h.1 ▸ min_le_right _ _⟩

/-- Claim C4, witness: six straight failures under the v4 maximum (two
completed runs) keep the interval at or below the maximum. -/
theorem c4_witness :
    (schedRun maxUploadInterval4
        [false, false, false, false, false, false]).current_interval
      ≤ maxUploadInterval4 :=
  (c4_theorem maxUploadInterval4 [false, false, false, false, false, false]
    (by decide)).2

/-- Claim C5, counterexample: after a failed upload attempt at time 10
(both flags set, interval elapsed), `last_upload_time` still holds its
old value 0 — the failure path does not record the attempt time. -/
theorem c5_counterexample :
    (mainTick3 ⟨true, true, 0, minUploadInterval, 0⟩ (mkRat 10 1) false).last_upload_time
      ≠ mkRat 10 1 := by
  with_unfolding_all decide

/-- Claim C5 (amended): a failed upload attempt increments
`consecutive_failures` (resetting it to zero once the threshold is
reached) and leaves both readiness flags unchanged, but does NOT record
`last_upload_time`, which is written only on success. -/
theorem c5_theorem (s : MainState3) (now : ℚ)
    (hg : s.gps_data_valid = true) (hb : s.ble_data_received = true)
    (he : s.current_upload_interval ≤ now - s.last_upload_time) :
    (mainTick3 s now false).gps_data_valid = true
    ∧ (mainTick3 s now false).ble_data_received = true
    ∧ (mainTick3 s now false).last_upload_time = s.last_upload_time
    ∧ (mainTick3 s now false).consecutive_failures
        = (if maxConsecutiveFailures ≤ s.consecutive_failures + 1 then 0
           else s.consecutive_failures + 1) := by
  have hup : upload_data_v3 s false = (s, false) := by
    unfold upload_data_v3
    rw [hg, hb]
    rfl
  have hmain : mainTick3 s now false
      = if maxConsecutiveFailures ≤ s.consecutive_failures + 1 then
          { s with current_upload_interval :=
                     min (s.current_upload_interval * 2) maxUploadInterval3,
                   consecutive_failures := 0 }
        else { s with consecutive_failures := s.consecutive_failures + 1 } := by
    unfold mainTick3
    rw [if_pos he, hup]
  rw [hmain]
  by_cases hth : maxConsecutiveFailures ≤ s.consecutive_failures + 1
  · rw [if_pos hth, if_pos hth]
    exact ⟨hg, hb, rfl, rfl⟩
  · rw [if_neg hth, if_neg hth]
    exact ⟨hg, hb, rfl, rfl⟩

/-- Claim C5, witness: the amended behaviour at a concrete failed
attempt (flags set, `last_upload_time = 0`, attempt at time 10). -/
theorem c5_witness :
    (mainTick3 ⟨true, true, 0, minUploadInterval, 0⟩ (mkRat 10 1) false).gps_data_valid = true
    ∧ (mainTick3 ⟨true, true, 0, minUploadInterval, 0⟩ (mkRat 10 1) false).ble_data_received = true
    ∧ (mainTick3 ⟨true, true, 0, minUploadInterval, 0⟩ (mkRat 10 1) false).last_upload_time = (0 : ℚ)
    ∧ (mainTick3 ⟨true, true, 0, minUploadInterval, 0⟩ (mkRat 10 1) false).consecutive_failures
        = (if maxConsecutiveFailures ≤ 0 + 1 then 0 else 0 + 1) :=
  c5_theorem ⟨true, true, 0, minUploadInterval, 0⟩ (mkRat 10 1) rfl rfl
    (by with_unfolding_all decide)

/-- Claim C6, counterexample: with four samples pushed, a first
`get_new` call returns the snapshot and an immediately repeated call on
the (unchanged) pool returns the same snapshot again — not nothing. -/
theorem c6_counterexample :
    ((pushAll (Pool.empty ℕ 10) [1, 2, 3, 4]).get_new_call 4).1
      = some [some 1, some 2, some 3, some 4]
    ∧ ((((pushAll (Pool.empty ℕ 10) [1, 2, 3, 4]).get_new_call 4).2).get_new_call 4).1
      ≠ none := by
  decide

/-- Claim C6 (amended): `get_new` is a pure read — the call leaves the
pool unchanged, so a second call with no intervening push returns the
same snapshot rather than nothing. -/
theorem c6_theorem {α : Type} (p : Pool α) (n : ℕ) (s : List (Option α))
    (h : (p.get_new_call n).1 = some s) :
    (p.get_new_call n).2 = p
    ∧ ((p.get_new_call n).2.get_new_call n).1 = some s :=
  ⟨rfl, h⟩

/-- Claim C6, witness: the amended behaviour at the four-sample pool. -/
theorem c6_witness :
    ((pushAll (Pool.empty ℕ 10) [1, 2, 3, 4]).get_new_call 4).2
      = pushAll (Pool.empty ℕ 10) [1, 2, 3, 4]
    ∧ (((pushAll (Pool.empty ℕ 10) [1, 2, 3, 4]).get_new_call 4).2.get_new_call 4).1
      = some [some 1, some 2, some 3, some 4] :=
  c6_theorem (pushAll (Pool.empty ℕ 10) [1, 2, 3, 4]) 4
    [some 1, some 2, some 3, some 4] (by decide)

/-- Claim C7, counterexample: in the v4 variant, with the position-valid
flag false but four samples pushed, `generate_payload` still returns a
record — it does not consult the position-valid flag. -/
theorem c7_counterexample :
    GPSState.init.gps_data_valid = false
    ∧ generate_payload_v4 GPSState.init (pushAll (Pool.empty ℕ 10) [1, 2, 3, 4]) "t"
        ≠ none := by
  with_unfolding_all decide

/-- Claim C7 (amended): the v3 `generate_payload` returns nothing
exactly when the position-valid flag or the batch flag is unset, but the
v4 `generate_payload` returns nothing exactly when the pool read
(`get_new`) yields nothing, regardless of the position-valid flag. -/
theorem c7_theorem {β : Type} (g : GPSState) (br : Bool) (ud : List β)
    (t : String) (p : Pool β) :
    (generate_payload_v3 g br ud t = none ↔ ¬(g.gps_data_valid = true ∧ br = true))
    ∧ (generate_payload_v4 g p t = none ↔ p.get_new 4 = none) := by
  constructor
  · unfold generate_payload_v3
    by_cases h : (g.gps_data_valid && br) = true
    · rw [if_pos h]
      rw [Bool.and_eq_true] at h
      simp [h]
    · rw [if_neg h]
      rw [Bool.and_eq_true] at h
      exact iff_of_true rfl h
  · unfold generate_payload_v4
    cases hg : p.get_new 4 with
    | none => simp
    | some d => simp

/-- Claim C8, counterexample: the v2 payload builder uses Python
`str()`: at the initial coordinate 0.0 the `position_x` field is
`"0.0"`, with one fractional digit, not six. -/
theorem c8_counterexample :
    ((generate_payload_v2 GPSState.init ([] : List String) "t").map
        (fun pl => fracDigitCount pl.position_x)) = some 1
    ∧ (1 : ℕ) ≠ 6 := by
  with_unfolding_all decide

/-- Claim C8 (amended): every payload the v3 or v4 builder produces has
`position_x`/`position_y` formatted with exactly six fractional digits;
the v2 builder does not guarantee that (see the counterexample). -/
theorem c8_theorem {β : Type} (g : GPSState) (br : Bool) (ud : List β)
    (t : String) (p : Pool β) :
    (∀ pl, generate_payload_v3 g br ud t = some pl →
        fracDigitCount pl.position_x = 6 ∧ fracDigitCount pl.position_y = 6)
    ∧ (∀ pl, generate_payload_v4 g p t = some pl →
        fracDigitCount pl.position_x = 6 ∧ fracDigitCount pl.position_y = 6) := by
  constructor
  · intro pl h
    unfold generate_payload_v3 at h
    split at h
    · rw [Option.some.injEq] at h
      rw [← h]
      exact ⟨fracDigitCount_fmt6 _, fracDigitCount_fmt6 _⟩
    · simp at h
  · intro pl h
    unfold generate_payload_v4 at h
    split at h
    · simp at h
    · rw [Option.some.injEq] at h
      rw [← h]
      exact ⟨fracDigitCount_fmt6 _, fracDigitCount_fmt6 _⟩

/-- Claim C8, witness: the concrete v4 payload at coordinates 0.0 has
six fractional digits in both position fields. -/
theorem c8_witness :
    fracDigitCount (Payload.position_x
        (⟨device_id, "0.000000", "0.000000", "t",
          [some 1, some 2, some 3, some 4]⟩ : Payload (List (Option ℕ)))) = 6
    ∧ fracDigitCount (Payload.position_y
        (⟨device_id, "0.000000", "0.000000", "t",
          [some 1, some 2, some 3, some 4]⟩ : Payload (List (Option ℕ)))) = 6 :=
  (c8_theorem GPSState.init true ([] : List ℕ) "t"
      (pushAll (Pool.empty ℕ 10) [1, 2, 3, 4])).2
    ⟨device_id, "0.000000", "0.000000", "t", [some 1, some 2, some 3, some 4]⟩
    (by with_unfolding_all decide)

/-- Claim C9: `get_new n` returns `None` exactly when the write cursor
(the push count modulo the capacity 10) is below `n`; in particular
after any multiple of the capacity pushes it returns `None`, even
though, once at least 10 samples have been pushed, every buffer slot is
occupied. -/
theorem c9_theorem (l : List ℕ) (n : ℕ) :
    ((pushAll (Pool.empty ℕ 10) l).get_new n = none ↔ l.length % 10 < n)
    ∧ (∀ k, l.length = 10 * k → 1 ≤ n →
        (pushAll (Pool.empty ℕ 10) l).get_new n = none)
    ∧ (10 ≤ l.length →
        ∀ x ∈ (pushAll (Pool.empty ℕ 10) l).buffer, x.isSome = true) := by
  refine ⟨?_, ?_, buffer_full_pushAll l⟩
  · unfold Pool.get_new
    rw [index_pushAll]
    split
    · simp
      omega
    · simp
      omega
  · intro k hk hn
    unfold Pool.get_new
    rw [index_pushAll, hk]
    rw [if_neg (by omega)]

/-- Claim C9, witness: ten pushes (one full wrap) with `n = 4`: the
`None`-iff-cursor-below-`n` characterisation at a concrete input. -/
theorem c9_witness :
    ((pushAll (Pool.empty ℕ 10) [0, 1, 2, 3, 4, 5, 6, 7, 8, 9]).get_new 4 = none
      ↔ ([0, 1, 2, 3, 4, 5, 6, 7, 8, 9] : List ℕ).length % 10 < 4) :=
  (c9_theorem [0, 1, 2, 3, 4, 5, 6, 7, 8, 9] 4).1

/-- Claim C10: in the v2 variant, any sentence with exactly six
comma-fields makes `_parse_gll` raise `IndexError` (the guard admits six
fields but `parts[6]` is read); inside `read_gps_data`'s blanket
handler the exception aborts the loop, so the remaining sentences of the
chunk are skipped and the state is returned unchanged. -/
theorem c10_theorem (st : GPSState) (s : String)
    (h6 : (fieldsOf s).length = 6) :
    parse_gll_v2 st s = .error .indexError
    ∧ ∀ rest, isSubstring "GLL".data s.data = true →
        read_gps_data_v2 st (s :: rest) = st := by
  have herr : parse_gll_v2 st s = .error .indexError := by
    simp only [parse_gll_v2]
    rw [if_pos (by omega), if_neg (by omega)]
  refine ⟨herr, ?_⟩
  intro rest hsub
  have hne : s.data.isEmpty = false := by
    cases hd : s.data with
    | nil =>
      exfalso
      have hf : fieldsOf s = [[]] := by unfold fieldsOf; rw [hd]; rfl
      rw [hf] at h6
      simp at h6
    | cons a l => rfl
  simp [read_gps_data_v2, hne, hsub, herr]

/-- Claim C10, witness: the six-field GLL sentence errors, and a chunk
holding it followed by a perfectly valid sentence still leaves the
state untouched — the valid sentence is never parsed. -/
theorem c10_witness :
    read_gps_data_v2 GPSState.init [gllSixFieldSentence, gllTestSentence]
      = GPSState.init
    ∧ parse_gll_v2 GPSState.init gllSixFieldSentence = .error .indexError :=
  ⟨(c10_theorem GPSState.init gllSixFieldSentence (by decide)).2
      [gllTestSentence] (by decide),
   (c10_theorem GPSState.init gllSixFieldSentence (by decide)).1⟩

end ESP32
